/-
Verification of the ping-grafico monitoring core against its specification.

The Python source is shallowly embedded: latencies, jitter and percentages
are modelled as rationals (the source uses Python floats; all claims here
are about the algebraic structure of the computations), external effects
(the ping3 probe, the SQLite durable write) are modelled as explicit
outcome parameters, and the stateful batch saver is explicit state passing.
-/
import Mathlib

namespace PingGrafico

/-! ## mos_functions.py -/

/-- `calcular_mos` from `src/mos_functions.py`: computes
`(MOS, R, latencia_efectiva)` from average latency, jitter and packet
loss percentage.  Mirrors the source line by line. -/
def calcular_mos (latencia_promedio jitter perdida_paquetes : ℚ) : ℚ × ℚ × ℚ :=
  let latencia_efectiva := latencia_promedio + jitter * 2 + 10
  let R0 : ℚ :=
    if latencia_efectiva < 160 then 93.2 - latencia_efectiva / 40
    else 93.2 - (latencia_efectiva - 120) / 10
  let R1 := R0 - perdida_paquetes * 2.5
  -- Limitar R entre 0 y 100
  let R := max 0 (min 100 R1)
  let MOS := 1 + 0.035 * R + 0.000007 * R * (R - 60) * (100 - R)
  -- Limitar MOS entre 1 y 5
  (max 1 (min 5 MOS), R, latencia_efectiva)

/-- The MOS computation as worded by the specification (§4.3 steps 5–7):
`effective_latency = avg_latency + 2*jitter + 10`; piecewise R-factor;
R reduced by `2.5 * loss_percent` and clamped to `[0,100]`; MOS formula
clamped to `[1.0, 5.0]`.  Written from the spec's words, to be compared
with `calcular_mos`. -/
def mos_spec (avg_latency jitter loss_percent : ℚ) : ℚ × ℚ × ℚ :=
  let effective_latency := avg_latency + 2 * jitter + 10
  let R0 : ℚ :=
    if effective_latency < 160 then 93.2 - effective_latency / 40
    else 93.2 - (effective_latency - 120) / 10
  let R := max 0 (min 100 (R0 - 2.5 * loss_percent))
  let MOS := 1 + 0.035 * R + 0.000007 * R * (R - 60) * (100 - R)
  (max 1 (min 5 MOS), R, effective_latency)

/-- `clasificar_mos` from `src/mos_functions.py`: quality label from MOS. -/
def clasificar_mos (mos : ℚ) : String :=
  if 4.3 ≤ mos then "Excelente"
  else if 4.0 ≤ mos then "Buena"
  else if 3.6 ≤ mos then "Aceptable"
  else if 3.1 ≤ mos then "Pobre"
  else "Mala"

/-- The first component of `calcular_mos` is clamped to `[1, 5]`. -/
theorem calcular_mos_fst_bounds (a j p : ℚ) :
    1 ≤ (calcular_mos a j p).1 ∧ (calcular_mos a j p).1 ≤ 5 := by
  unfold calcular_mos
  refine ⟨le_max_left _ _, max_le (by norm_num) (min_le_left _ _)⟩

/-- C1: `calcular_mos` computes exactly the specified effective latency,
piecewise R-factor with loss penalty and `[0,100]` clamp, and the MOS
polynomial with `[1,5]` clamp. -/
theorem calcular_mos_eq_spec (a j p : ℚ) :
    calcular_mos a j p = mos_spec a j p := by
  unfold calcular_mos mos_spec
  have h1 : a + j * 2 + 10 = a + 2 * j + 10 := by ring
  have h2 : p * 2.5 = 2.5 * p := by ring
  rw [h1, h2]

/-! ## netutils.py — probe primitive and probing loop -/

/-- Outcome of one call of the external probe primitive `ping3.ping`:
it returns `None` on timeout, a round-trip time in seconds on success,
or raises an exception; a `KeyboardInterrupt` can also fire during the
call.  The primitive is external, so its outcome is a parameter. -/
inductive ProbeOutcome
  | timeout
  | reply (rtt : ℚ)
  | exn
  | interrupt
deriving DecidableEq

/-- A Python exception, as far as the probing loop distinguishes them:
`grabar_ping` handles `KeyboardInterrupt` and nothing else. -/
inductive PyExc
  | keyboardInterrupt
  | other
deriving DecidableEq

/-- `ping_unico` from `src/netutils.py`: one probe with 4 s timeout.
`None` becomes the loss sentinel `-1`; a reply is converted to
milliseconds and returned (the corrective sleep has no effect on the
returned value).  The function has no exception handler, so a raised
exception propagates (`Except.error`). -/
def ping_unico : ProbeOutcome → Except PyExc ℚ
  | .timeout => .ok (-1)
  | .reply rtt => .ok (rtt * 1000)
  | .exn => .error .other
  | .interrupt => .error .keyboardInterrupt

/-- How a run of the `grabar_ping` loop ended after consuming a finite
trace of probe outcomes. -/
inductive RunState
  | running
  | cancelled
  | crashed
deriving DecidableEq

/-- Result of running the `grabar_ping` loop over a finite trace:
the latencies recorded to the store (in order) and the loop status. -/
structure RunResult where
  records : List ℚ
  state : RunState
deriving DecidableEq

/-- The `while True` loop of `grabar_ping` from `src/netutils.py`, run
over a finite trace of probe outcomes: each tick calls `ping_unico` and
stores the result via `guardar_ping`.  The loop body sits in a
`try ... except KeyboardInterrupt`, so a `KeyboardInterrupt` ends the
run cleanly while any other exception escapes the loop uncaught. -/
def grabar_ping_run : List ProbeOutcome → RunResult
  | [] => ⟨[], .running⟩
  | o :: rest =>
    match ping_unico o with
    | .ok ms =>
      let r := grabar_ping_run rest
      ⟨ms :: r.records, r.state⟩
    | .error .keyboardInterrupt => ⟨[], .cancelled⟩
    | .error .other => ⟨[], .crashed⟩

/-- One tick of the probing loop in `hacer_ping` from
`src/mos_functions.py` (lines 42–53): the `ping3.ping` call sits in a
`try ... except Exception: pass`, and its result is accepted — appended
to `latencias` in milliseconds and counted as received — only when it is
not `None` and strictly greater than `0.001` seconds (1 ms).  `none`
means the tick is counted as a lost packet: no latency is recorded. -/
def hacer_ping_tick : ProbeOutcome → Option ℚ
  | .timeout => none
  | .reply rtt => if 0.001 < rtt then some (rtt * 1000) else none
  | .exn => none
  | .interrupt => none

/-- C2 counterexample: a probe exception on the first tick of
`grabar_ping` records no loss sample and crashes the loop — the
exception is not caught, contradicting the claim that every probe
exception is converted to a loss Sample and never ends the loop. -/
theorem grabar_ping_exn_crashes :
    grabar_ping_run [.exn] = ⟨[], .crashed⟩ ∧
      (⟨[], .crashed⟩ : RunResult) ≠ ⟨[(-1 : ℚ)], .running⟩ := by
  constructor
  · rfl
  · decide

/-- C2 amended: a timeout (`ping3.ping` returning `None`) is recorded as
the loss sentinel `-1` and the loop continues; a non-interrupt probe
exception is not caught by `ping_unico`/`grabar_ping` and aborts the
loop without recording that tick; only `KeyboardInterrupt` stops the
loop cleanly. -/
theorem grabar_ping_failure_semantics (rest : List ProbeOutcome) :
    (grabar_ping_run (.timeout :: rest)).records
        = -1 :: (grabar_ping_run rest).records ∧
      (grabar_ping_run (.timeout :: rest)).state
        = (grabar_ping_run rest).state ∧
      grabar_ping_run (.exn :: rest) = ⟨[], .crashed⟩ ∧
      grabar_ping_run (.interrupt :: rest) = ⟨[], .cancelled⟩ := by
  refine ⟨rfl, rfl, rfl, rfl⟩

/-- C3 counterexample: `ping_unico` applies no minimum-latency
threshold: a successful probe of 0.5 ms is returned as the latency
`0.5`, not replaced by the loss sentinel `-1`, contradicting the claim
that every prober rejects successes of at most 1 ms. -/
theorem ping_unico_accepts_tiny_latency :
    ping_unico (.reply (1 / 2000)) = .ok (1 / 2) ∧
      (1 / 2 : ℚ) < 1 ∧ (1 / 2 : ℚ) ≠ -1 := by
  refine ⟨?_, by norm_num, by norm_num⟩
  unfold ping_unico
  norm_num

/-- C3 amended: the strict 1 ms acceptance threshold exists only in
`hacer_ping` (`src/mos_functions.py`), where a success is recorded iff
its round-trip time exceeds 0.001 s, and a rejected tick is simply
counted as lost (no sentinel sample is emitted); `ping_unico`
(`src/netutils.py`) accepts every reply unconditionally and reserves the
`-1` sentinel for timeouts alone. -/
theorem min_threshold_only_in_hacer_ping (rtt : ℚ) :
    (hacer_ping_tick (.reply rtt) = some (rtt * 1000) ↔ 0.001 < rtt) ∧
      (hacer_ping_tick (.reply rtt) = none ↔ rtt ≤ 0.001) ∧
      ping_unico (.reply rtt) = .ok (rtt * 1000) ∧
      ping_unico .timeout = .ok (-1) := by
  unfold hacer_ping_tick ping_unico
  refine ⟨?_, ?_, rfl, rfl⟩
  · constructor
    · intro h
      by_contra hc
      simp [hc] at h
    · intro h
      simp [h]
  · constructor
    · intro h
      by_contra hc
      push_neg at hc
      simp [hc] at h
    · intro h
      have : ¬ (0.001 : ℚ) < rtt := not_lt.mpr h
      simp [this]

/-! ## netutils.py — BatchPingSaver

The saver buffers `(timestamp, tiempo_ms)` pairs and commits them to the
SQLite table `pings` in batches.  The table is modelled as the list of
committed rows in insertion order (the `id AUTOINCREMENT` column is the
position); timestamps are natural numbers ordered like the source's
`"YYYY-MM-DD HH:MM:SS"` strings. -/

/-- One row of the `pings` table / one buffered sample:
`(timestamp, tiempo_ms)`. -/
structure Row where
  timestamp : ℕ
  tiempo_ms : ℚ
deriving DecidableEq

/-- State of a `BatchPingSaver` together with its SQLite partition:
`db` is the committed content of the `pings` table, `buffer` the
in-memory pending samples, `batch_size` the commit threshold. -/
structure SaverState where
  db : List Row
  buffer : List Row
  batch_size : ℕ
deriving DecidableEq

/-- A fresh saver over an empty partition, as built by
`preparar_bd_sqlite` plus `BatchPingSaver.__init__` (default
`batch_size = 10`). -/
def initSaver (batch_size : ℕ) : SaverState :=
  ⟨[], [], batch_size⟩

/-- `BatchPingSaver.flush` from `src/netutils.py`, success path: if the
buffer is empty, return at once; otherwise insert every buffered row,
commit, and clear the buffer. -/
def flush (s : SaverState) : SaverState :=
  if s.buffer = [] then s
  else { s with db := s.db ++ s.buffer, buffer := [] }

/-- `BatchPingSaver.agregar_ping` from `src/netutils.py`, success path:
append the sample to the buffer, then flush when the buffer has reached
`batch_size`. -/
def agregar_ping (r : Row) (s : SaverState) : SaverState :=
  let s1 := { s with buffer := s.buffer ++ [r] }
  if s.batch_size ≤ s1.buffer.length then flush s1 else s1

/-- `BatchPingSaver.flush` with the durable write (the
`executemany` + `commit` transaction) modelled as fallible: `ok = true`
means the transaction commits, `ok = false` that it raises.  `flush` has
no handler, so on failure the exception propagates (second component
`true`), the transaction leaves the table unchanged, and
`buffer.clear()` is never reached. -/
def flushF (ok : Bool) (s : SaverState) : SaverState × Bool :=
  if s.buffer = [] then (s, false)
  else if ok then ({ s with db := s.db ++ s.buffer, buffer := [] }, false)
  else (s, true)

/-- `BatchPingSaver.agregar_ping` with the fallible durable write
threaded through: the buffer append always happens; the triggered flush
may fail and propagate. -/
def agregar_pingF (ok : Bool) (r : Row) (s : SaverState) : SaverState × Bool :=
  let s1 := { s with buffer := s.buffer ++ [r] }
  if s.batch_size ≤ s1.buffer.length then flushF ok s1 else (s1, false)

/-- Run a sequence of appends in which every triggered durable write
fails, keeping the state across the propagated exceptions (as the
caller's loop would after catching / across ticks). -/
def appendsAllFail (rows : List Row) (s : SaverState) : SaverState :=
  rows.foldl (fun st r => (agregar_pingF false r st).1) s

/-- After `flush` the buffer is always empty. -/
theorem flush_buffer_empty (s : SaverState) : (flush s).buffer = [] := by
  unfold flush
  by_cases h : s.buffer = [] <;> simp [h]

/-- C8: `flush` is idempotent — a second `flush` with no intervening
append changes nothing: the table keeps exactly the rows of the first
flush and the buffer stays empty. -/
theorem flush_idempotent (s : SaverState) :
    flush (flush s) = flush s ∧ (flush s).buffer = [] := by
  refine ⟨?_, flush_buffer_empty s⟩
  by_cases h : s.buffer = [] <;> simp [flush, h]

/-- `flush` commits exactly the buffered rows, in order, after the
already committed ones. -/
theorem flush_db (s : SaverState) : (flush s).db = s.db ++ s.buffer := by
  unfold flush
  by_cases h : s.buffer = [] <;> simp [h]

/-- `agregar_ping` preserves the batch size. -/
theorem agregar_ping_batch_size (r : Row) (s : SaverState) :
    (agregar_ping r s).batch_size = s.batch_size := by
  unfold agregar_ping flush
  by_cases h : s.batch_size ≤ s.buffer.length + 1 <;> simp [h]

/-- Committed rows plus buffered rows is invariant under
`agregar_ping` up to the one appended sample. -/
theorem agregar_ping_db_buffer (r : Row) (s : SaverState) :
    (agregar_ping r s).db ++ (agregar_ping r s).buffer
      = s.db ++ s.buffer ++ [r] := by
  unfold agregar_ping flush
  by_cases h : s.batch_size ≤ s.buffer.length + 1 <;> simp [h]

/-- Fold form of `agregar_ping_db_buffer` over a whole append
sequence. -/
theorem foldl_agregar_ping_db_buffer (rows : List Row) (s : SaverState) :
    (rows.foldl (fun st r => agregar_ping r st) s).db
        ++ (rows.foldl (fun st r => agregar_ping r st) s).buffer
      = s.db ++ s.buffer ++ rows := by
  induction rows generalizing s with
  | nil => simp
  | cons r rest ih =>
    have h := agregar_ping_db_buffer r s
    simp only [List.foldl_cons]
    rw [ih (agregar_ping r s), h]
    simp

/-- Appending a list of samples to a fresh saver and flushing commits
exactly those samples in order. -/
theorem append_then_flush_db (rows : List Row) (bs : ℕ) :
    (flush (rows.foldl (fun st r => agregar_ping r st) (initSaver bs))).db
      = rows := by
  rw [flush_db, foldl_agregar_ping_db_buffer]
  simp [initSaver]

/-- One `agregar_ping` keeps the buffer strictly below the batch size
(when the batch size is positive), and an append that fills the buffer
to `batch_size` leaves it empty. -/
theorem agregar_ping_buffer_lt (r : Row) (s : SaverState)
    (hbs : 1 ≤ s.batch_size) :
    (agregar_ping r s).buffer.length < s.batch_size ∧
      (s.buffer.length + 1 = s.batch_size → (agregar_ping r s).buffer = []) := by
  unfold agregar_ping flush
  by_cases h : s.batch_size ≤ s.buffer.length + 1
  · simp only [List.length_append, List.length_cons, List.length_nil, h,
      if_true]
    constructor
    · simp [List.append_ne_nil_of_right_ne_nil]
      omega
    · intro _
      simp [List.append_ne_nil_of_right_ne_nil]
  · simp only [List.length_append, List.length_cons, List.length_nil, h,
      if_false]
    constructor
    · simp
      omega
    · intro heq
      omega

/-- C10: for every positive batch size and every append sequence run on
a fresh saver, the buffer holds strictly fewer than `batch_size` rows
after each append returns; in particular an append that fills the buffer
to `batch_size` triggers a flush that empties it. -/
theorem buffer_strictly_below_batch_size (bs : ℕ) (hbs : 1 ≤ bs)
    (rows : List Row) :
    (rows.foldl (fun st r => agregar_ping r st) (initSaver bs)).buffer.length
        < bs ∧
      ∀ r s, s.batch_size = bs →
        (agregar_ping r s).buffer.length < bs ∧
          (s.buffer.length + 1 = bs → (agregar_ping r s).buffer = []) := by
  constructor
  · have key : ∀ (l : List Row) (s : SaverState), s.batch_size = bs →
        s.buffer.length < bs →
        (l.foldl (fun st r => agregar_ping r st) s).buffer.length < bs := by
      intro l
      induction l with
      | nil => intro s h1 h2; simpa using h2
      | cons r rest ih =>
        intro s h1 h2
        simp only [List.foldl_cons]
        refine ih (agregar_ping r s) ?_ ?_
        · rw [agregar_ping_batch_size, h1]
        · have := (agregar_ping_buffer_lt r s (by omega)).1
          omega
    exact key rows (initSaver bs) rfl (by simpa [initSaver] using hbs)
  · intro r s hs
    subst hs
    exact agregar_ping_buffer_lt r s hbs

/-- C10 witness: with batch size 3 and four appends the buffer ends with
a single pending row, strictly below the batch size. -/
theorem buffer_strictly_below_batch_size_witness :
    (([⟨0, 1⟩, ⟨1, 2⟩, ⟨2, 3⟩, ⟨3, -1⟩] :
          List Row).foldl (fun st r => agregar_ping r st)
        (initSaver 3)).buffer.length < 3 :=
  (buffer_strictly_below_batch_size 3 (by norm_num)
    [⟨0, 1⟩, ⟨1, 2⟩, ⟨2, 3⟩, ⟨3, -1⟩]).1

/-- C9 counterexample: with batch size 10 and a durable write that fails
at every trigger, eleven appends leave eleven rows in the buffer — more
than one batch — so an unclean termination at that point loses more than
`batch_size` samples, contradicting the claimed bound. -/
theorem failed_writes_exceed_batch_size :
    (appendsAllFail ((List.range 11).map (fun i => ⟨i, 0⟩))
          (initSaver 10)).buffer.length = 11 ∧
      ¬ (appendsAllFail ((List.range 11).map (fun i => ⟨i, 0⟩))
          (initSaver 10)).buffer.length ≤ 10 := by
  constructor <;> decide

/-- C9 amended: a failed durable write leaves the saver exactly as it
was — the table uncommitted and the buffer retained with no row dropped
or duplicated — and the exception propagates; the next successful flush
then commits exactly the retained buffer and empties it.  The data lost
on unclean termination is the current buffer, which stays below
`batch_size` only while writes succeed and can exceed it after
failures. -/
theorem flush_failure_retains_buffer (s : SaverState) (h : s.buffer ≠ []) :
    flushF false s = (s, true) ∧
      (flushF true s).1.db = s.db ++ s.buffer ∧
      (flushF true s).1.buffer = [] ∧
      (flushF true s).2 = false := by
  unfold flushF
  simp [h]

/-- C9 witness: a saver with one buffered row keeps it unchanged across
a failed write, and a later successful flush commits exactly that row. -/
theorem flush_failure_retains_buffer_witness :
    flushF false ⟨[], [⟨0, 5⟩], 10⟩ = (⟨[], [⟨0, 5⟩], 10⟩, true) ∧
      (flushF true ⟨[], [⟨0, 5⟩], 10⟩).1.db = [] ++ [⟨0, 5⟩] ∧
      (flushF true ⟨[], [⟨0, 5⟩], 10⟩).1.buffer = [] ∧
      (flushF true ⟨[], [⟨0, 5⟩], 10⟩).2 = false :=
  flush_failure_retains_buffer ⟨[], [⟨0, 5⟩], 10⟩ (by decide)

/-! ## api.py — query and aggregation service -/

/-- `ORDER BY timestamp DESC`: row `a` may precede row `b` when `a`'s
timestamp is at least `b`'s. -/
def tsDesc (a b : Row) : Prop := b.timestamp ≤ a.timestamp

instance : DecidableRel tsDesc := fun a b =>
  inferInstanceAs (Decidable (b.timestamp ≤ a.timestamp))

instance : IsTotal Row tsDesc := ⟨fun a b => le_total b.timestamp a.timestamp⟩

instance : IsTrans Row tsDesc := ⟨fun _ _ _ h1 h2 => le_trans h2 h1⟩

/-- The optional filters of `GET /api/ping/{ip}` in `src/api.py`. -/
structure PingQuery where
  limit : ℕ
  offset : ℕ
  from_date : Option ℕ
  to_date : Option ℕ
  min_latency : Option ℚ
  max_latency : Option ℚ
  only_failures : Bool

/-- The `WHERE` clause built by `get_pings`: each present filter adds
one conjunct. -/
def matchesFilters (q : PingQuery) (r : Row) : Bool :=
  (match q.from_date with
    | some d => decide (d ≤ r.timestamp)
    | none => true) &&
  (match q.to_date with
    | some d => decide (r.timestamp ≤ d)
    | none => true) &&
  (match q.min_latency with
    | some m => decide (m ≤ r.tiempo_ms)
    | none => true) &&
  (match q.max_latency with
    | some m => decide (r.tiempo_ms ≤ m)
    | none => true) &&
  (if q.only_failures then decide (r.tiempo_ms = -1) else true)

/-- The response of `get_pings`: the total matching count (computed by
the separate count query, without limit/offset) and the returned page. -/
structure QueryPage where
  total_results : ℕ
  returned : ℕ
  pings : List Row

/-- `get_pings` from `src/api.py`: filter, order by timestamp
descending, then apply `LIMIT ? OFFSET ?`; the count query reuses the
same filters without the limit and offset. -/
def get_pings (db : List Row) (q : PingQuery) : QueryPage :=
  let filtered := db.filter (matchesFilters q)
  let ordered := filtered.insertionSort tsDesc
  let page := (ordered.drop q.offset).take q.limit
  ⟨filtered.length, page.length, page⟩

/-- A query with no optional filters, as in the round-trip scenario. -/
def noFilters (limit offset : ℕ) : PingQuery :=
  ⟨limit, offset, none, none, none, none, false⟩

/-- `int(n * p)` for the percentile fractions of `get_stats`, written
over naturals: `floor(n * (pnum/100))`. -/
def percentile_index (n pnum : ℕ) : ℕ := n * pnum / 100

/-- The percentile block of `get_stats` from `src/api.py`: select the
non-loss `tiempo_ms` values, sort them, and index the sorted list at
`int(n * 0.50)`, `int(n * 0.95)`, `int(n * 0.99)`; with no valid
latencies the percentiles are absent. -/
def get_stats_percentiles (tiempos : List ℚ) : Option (ℚ × ℚ × ℚ) :=
  let latencies := tiempos.filter (fun t => decide (t ≠ -1))
  if latencies = [] then none
  else
    let sorted_latencies := latencies.insertionSort (· ≤ ·)
    let n := sorted_latencies.length
    some (sorted_latencies.getD (percentile_index n 50) 0,
      sorted_latencies.getD (percentile_index n 95) 0,
      sorted_latencies.getD (percentile_index n 99) 0)

/-- C4: the percentile index `floor(n * p)` is in bounds for every
non-empty latency set (`p ∈ {0.50, 0.95, 0.99}`); a single-element set
yields that element for every percentile; and the stored non-loss
latencies `[10,20,30,40,50]` yield `p50 = 30` and `p95 = 50` (and
`p99 = 50`). -/
theorem percentiles_floor_indexing (n : ℕ) (x : ℚ) (hn : 1 ≤ n)
    (hx : x ≠ -1) :
    (percentile_index n 50 < n ∧ percentile_index n 95 < n ∧
        percentile_index n 99 < n) ∧
      get_stats_percentiles [x] = some (x, x, x) ∧
      get_stats_percentiles [10, 20, 30, 40, 50] = some (30, 50, 50) := by
  refine ⟨⟨?_, ?_, ?_⟩, ?_, ?_⟩
  · exact Nat.div_lt_of_lt_mul (by omega)
  · exact Nat.div_lt_of_lt_mul (by omega)
  · exact Nat.div_lt_of_lt_mul (by omega)
  · simp [get_stats_percentiles, percentile_index, hx, List.insertionSort]
  · decide

/-- C4 witness: instantiated at a five-element set and the single
latency 7. -/
theorem percentiles_floor_indexing_witness :
    (percentile_index 5 50 < 5 ∧ percentile_index 5 95 < 5 ∧
        percentile_index 5 99 < 5) ∧
      get_stats_percentiles [7] = some (7, 7, 7) ∧
      get_stats_percentiles [10, 20, 30, 40, 50] = some (30, 50, 50) :=
  percentiles_floor_indexing 5 7 (by norm_num) (by norm_num)

/-- A query with no optional filters matches every row. -/
theorem matchesFilters_noFilters (limit offset : ℕ) (r : Row) :
    matchesFilters (noFilters limit offset) r = true := rfl

/-- C5: appending `N` samples to a fresh saver and flushing, then
querying with no filters, offset `0` and `limit ≥ N`, returns exactly
those `N` samples — a page that is a permutation of them, ordered by
timestamp descending — and reports `total_results = N`. -/
theorem append_flush_query_round_trip (rows : List Row) (bs limit : ℕ)
    (hl : rows.length ≤ limit) :
    (get_pings
          (flush (rows.foldl (fun st r => agregar_ping r st) (initSaver bs))).db
          (noFilters limit 0)).total_results = rows.length ∧
      (get_pings
          (flush (rows.foldl (fun st r => agregar_ping r st) (initSaver bs))).db
          (noFilters limit 0)).pings.Perm rows ∧
      List.Sorted tsDesc
        (get_pings
          (flush (rows.foldl (fun st r => agregar_ping r st) (initSaver bs))).db
          (noFilters limit 0)).pings ∧
      (get_pings
          (flush (rows.foldl (fun st r => agregar_ping r st) (initSaver bs))).db
          (noFilters limit 0)).returned = rows.length := by
  rw [append_then_flush_db]
  unfold get_pings
  have hfilter :
      rows.filter (matchesFilters (noFilters limit 0)) = rows :=
    List.filter_eq_self.mpr (fun a _ => matchesFilters_noFilters limit 0 a)
  simp only [hfilter]
  simp only [noFilters, List.drop_zero]
  have hperm : (rows.insertionSort tsDesc).Perm rows :=
    List.perm_insertionSort tsDesc rows
  have hlen : (rows.insertionSort tsDesc).length = rows.length :=
    hperm.length_eq
  have htake : (rows.insertionSort tsDesc).take limit = rows.insertionSort tsDesc :=
    List.take_of_length_le (by omega)
  rw [htake]
  exact ⟨trivial, hperm, List.sorted_insertionSort tsDesc rows, hlen⟩

/-- C5 witness: two samples with distinct timestamps survive the
append–flush–query round trip with `limit = 100`. -/
theorem append_flush_query_round_trip_witness :
    (get_pings
          (flush (([⟨2, 5⟩, ⟨1, -1⟩] : List Row).foldl
            (fun st r => agregar_ping r st) (initSaver 10))).db
          (noFilters 100 0)).total_results = 2 ∧
      (get_pings
          (flush (([⟨2, 5⟩, ⟨1, -1⟩] : List Row).foldl
            (fun st r => agregar_ping r st) (initSaver 10))).db
          (noFilters 100 0)).pings.Perm [⟨2, 5⟩, ⟨1, -1⟩] ∧
      List.Sorted tsDesc
        (get_pings
          (flush (([⟨2, 5⟩, ⟨1, -1⟩] : List Row).foldl
            (fun st r => agregar_ping r st) (initSaver 10))).db
          (noFilters 100 0)).pings ∧
      (get_pings
          (flush (([⟨2, 5⟩, ⟨1, -1⟩] : List Row).foldl
            (fun st r => agregar_ping r st) (initSaver 10))).db
          (noFilters 100 0)).returned = 2 :=
  append_flush_query_round_trip [⟨2, 5⟩, ⟨1, -1⟩] 10 100 (by norm_num)

/-! ## visorIndividual.py — rolling-window quality scorer -/

/-- `VENTANA_MOS` from `src/visorIndividual.py`: the fixed capacity of
the rolling MOS window. -/
def VENTANA_MOS : ℕ := 50

/-- Absolute differences between consecutive latencies, as the list
comprehension `[abs(l[i+1] - l[i]) for i in range(len(l) - 1)]`. -/
def consecDiffs : List ℚ → List ℚ
  | a :: b :: rest => |b - a| :: consecDiffs (b :: rest)
  | _ => []

/-- Observable outcome of `calcular_y_actualizar_mos`: an early return
with the window not yet full, the explicit "Insuficientes datos" state,
or a computed quality snapshot
`(mos, r_factor, latencia_efectiva, perdida_porcentaje, jitter)`. -/
inductive MosResult
  | noSnapshot
  | insufficient
  | snapshot (mos r_factor latencia_efectiva perdida_porcentaje jitter : ℚ)
deriving DecidableEq

/-- `calcular_y_actualizar_mos` from `src/visorIndividual.py`: on a
window of `(latency, is_valid)` pairs, return early while the window is
below capacity; split it into valid latencies and a loss count; report
"Insuficientes datos" with fewer than 5 valid samples; otherwise compute
average latency, consecutive-difference jitter, and the MOS via
`calcular_mos`. -/
def calcular_y_actualizar_mos (ventana : List (ℚ × Bool)) : MosResult :=
  if ventana.length < VENTANA_MOS then .noSnapshot
  else
    let latencias_validas := (ventana.filter (fun s => s.2)).map (fun s => s.1)
    let paquetes_perdidos := (ventana.filter (fun s => !s.2)).length
    let perdida_porcentaje := ((paquetes_perdidos : ℚ) / (VENTANA_MOS : ℚ)) * 100
    if latencias_validas.length < 5 then .insufficient
    else
      let latencia_promedio := latencias_validas.sum / (latencias_validas.length : ℚ)
      let jitter :=
        if 2 ≤ latencias_validas.length then
          (consecDiffs latencias_validas).sum
            / ((consecDiffs latencias_validas).length : ℚ)
        else 0
      let res := calcular_mos latencia_promedio jitter perdida_porcentaje
      .snapshot res.1 res.2.1 res.2.2 perdida_porcentaje jitter

/-- The loss percentage carried by a snapshot, if one was produced. -/
def snapshotLoss : MosResult → Option ℚ
  | .snapshot _ _ _ l _ => some l
  | _ => none

/-- C6: on a full window, exactly 4 valid samples yield the explicit
"insufficient data" outcome (no MOS), while at least 5 valid samples
yield a snapshot whose MOS lies in `[1, 5]`; below capacity no snapshot
is produced at all. -/
theorem mos_window_boundary (w : List (ℚ × Bool))
    (hw : w.length = VENTANA_MOS) :
    ((w.filter (fun s => s.2)).length = 4 →
        calcular_y_actualizar_mos w = .insufficient) ∧
      (5 ≤ (w.filter (fun s => s.2)).length →
        ∃ m r e l j, calcular_y_actualizar_mos w = .snapshot m r e l j ∧
          1 ≤ m ∧ m ≤ 5) ∧
      ∀ v : List (ℚ × Bool), v.length < VENTANA_MOS →
        calcular_y_actualizar_mos v = .noSnapshot := by
  have hc1 : ¬ w.length < VENTANA_MOS := by omega
  refine ⟨?_, ?_, ?_⟩
  · intro h4
    have hc2 : ((w.filter (fun s => s.2)).map (fun s => s.1)).length < 5 := by
      simp only [List.length_map]
      omega
    simp only [calcular_y_actualizar_mos, hc1, if_false, hc2, if_true]
  · intro h5
    have hc2 : ¬ ((w.filter (fun s => s.2)).map (fun s => s.1)).length < 5 := by
      simp only [List.length_map]
      omega
    simp only [calcular_y_actualizar_mos, hc1, if_false, hc2]
    exact ⟨_, _, _, _, _, rfl, (calcular_mos_fst_bounds _ _ _).1,
      (calcular_mos_fst_bounds _ _ _).2⟩
  · intro v hv
    simp only [calcular_y_actualizar_mos, hv, if_true]

/-- C6 witness: a full window with 4 valid samples, instantiating the
boundary theorem. -/
theorem mos_window_boundary_witness :
    (((List.replicate 4 ((20 : ℚ), true)
          ++ List.replicate 46 ((0 : ℚ), false)).filter
            (fun s => s.2)).length = 4 →
        calcular_y_actualizar_mos
          (List.replicate 4 ((20 : ℚ), true)
            ++ List.replicate 46 ((0 : ℚ), false)) = .insufficient) ∧
      (5 ≤ ((List.replicate 4 ((20 : ℚ), true)
          ++ List.replicate 46 ((0 : ℚ), false)).filter
            (fun s => s.2)).length →
        ∃ m r e l j,
          calcular_y_actualizar_mos
              (List.replicate 4 ((20 : ℚ), true)
                ++ List.replicate 46 ((0 : ℚ), false)) = .snapshot m r e l j ∧
            1 ≤ m ∧ m ≤ 5) ∧
      ∀ v : List (ℚ × Bool), v.length < VENTANA_MOS →
        calcular_y_actualizar_mos v = .noSnapshot :=
  mos_window_boundary
    (List.replicate 4 ((20 : ℚ), true) ++ List.replicate 46 ((0 : ℚ), false))
    (by decide)

/-- C7: on a full window producing a snapshot, the loss percentage
passed to the MOS computation equals exactly
`100 * loss_count / VENTANA_MOS` with `VENTANA_MOS = 50`. -/
theorem loss_percent_exact (w : List (ℚ × Bool))
    (hw : w.length = VENTANA_MOS)
    (h5 : 5 ≤ (w.filter (fun s => s.2)).length) :
    snapshotLoss (calcular_y_actualizar_mos w) =
      some (100 * ((w.filter (fun s => !s.2)).length : ℚ)
        / (VENTANA_MOS : ℚ)) := by
  have hc1 : ¬ w.length < VENTANA_MOS := by omega
  have hc2 : ¬ ((w.filter (fun s => s.2)).map (fun s => s.1)).length < 5 := by
    simp only [List.length_map]
    omega
  simp only [calcular_y_actualizar_mos, hc1, if_false, hc2, snapshotLoss]
  congr 1
  ring

/-- C7 witness: a full window with 45 valid samples and 5 losses,
instantiating the exact-loss theorem. -/
theorem loss_percent_exact_witness :
    snapshotLoss
        (calcular_y_actualizar_mos
          (List.replicate 45 ((10 : ℚ), true)
            ++ List.replicate 5 ((0 : ℚ), false))) =
      some (100 * (((List.replicate 45 ((10 : ℚ), true)
          ++ List.replicate 5 ((0 : ℚ), false)).filter
            (fun s => !s.2)).length : ℚ) / (VENTANA_MOS : ℚ)) :=
  loss_percent_exact
    (List.replicate 45 ((10 : ℚ), true) ++ List.replicate 5 ((0 : ℚ), false))
    (by decide) (by decide)

end PingGrafico
